import Mathlib

set_option maxRecDepth 16384

/-!
Verification of the SingleStore dialect module of sqlglot
(`sqlglot/dialects/singlestore.py`).

The module contributes: the `TIME_MAPPING` directive table, parser function
builders (`TO_DATE`, `TO_TIMESTAMP`, `TO_CHAR`, `STR_TO_DATE`, `DATE_FORMAT`,
`TIME_FORMAT`), generator transforms for the five temporal AST node kinds,
and the reserved-keyword set.  The longest-match format-string transcoder
itself (the trie lexer, the decode/encode functions, the inverse-table
construction) lives in the surrounding framework and is modelled here from
the specification.
-/

/-- A directive table: an ordered mapping from dialect format tokens to
canonical format directives, as Python dict entries in insertion order. -/
abbrev DirTable := List (String × String)

/-- An element of a canonical format representation: either a canonical
directive or a literal fragment passed through verbatim. -/
inductive FElem where
  | dir (d : String)
  | lit (s : String)
deriving DecidableEq, Repr

/-- Modelled from the spec: the longest-prefix matcher seeded from a directive
table's keys (the framework's time-format trie, `sqlglot.time`, absent from
`src/`).  Returns the longest table key that is a prefix of the remaining
input, with its canonical directive, or `none` when no key matches. -/
def bestMatch (tbl : DirTable) (cs : List Char) : Option (List Char × String) :=
  match tbl with
  | [] => none
  | (k, v) :: rest =>
    if k.data.isPrefixOf cs then
      match bestMatch rest cs with
      | none => some (k.data, v)
      | some (bk, bv) =>
        if bk.length < k.data.length then some (k.data, v) else some (bk, bv)
    else bestMatch rest cs

/-- Modelled from the spec: one left-to-right pass of the longest-match lexer
(the framework's `format_time` scanning loop, absent from `src/`).  At each
position the longest matching token is consumed and its canonical directive
emitted; a position with no match consumes exactly one character as a literal
fragment.  Fuel bounds the recursion; input length is always enough fuel. -/
def decodeAux (tbl : DirTable) : Nat → List Char → List FElem
  | 0, _ => []
  | _, [] => []
  | fuel + 1, c :: cs =>
    match bestMatch tbl (c :: cs) with
    | none => FElem.lit (String.mk [c]) :: decodeAux tbl fuel cs
    | some (k, v) => FElem.dir v :: decodeAux tbl fuel (cs.drop (k.length - 1))

/-- Modelled from the spec: adjacent literal characters are coalesced into a
single literal fragment of the output sequence. -/
def coalesce : List FElem → List FElem
  | [] => []
  | FElem.lit a :: rest =>
    match coalesce rest with
    | FElem.lit b :: r => FElem.lit (a ++ b) :: r
    | r => FElem.lit a :: r
  | FElem.dir d :: rest => FElem.dir d :: coalesce rest

/-- Modelled from the spec: `decode(format_string, source_table)` runs the
longest-match lexer over the whole input and coalesces adjacent literals,
yielding the canonical format sequence. -/
def decode (tbl : DirTable) (s : String) : List FElem :=
  coalesce (decodeAux tbl s.data.length s.data)

/-- Modelled from the spec: `lookup_forward(canonical) -> dialect_token option`.
The framework derives the forward table by inverting `TIME_MAPPING` as a
Python dict comprehension, so a canonical directive shared by several tokens
resolves to the last token registered for it. -/
def lookupForward (tbl : DirTable) (c : String) : Option String :=
  tbl.foldl (fun acc kv => if kv.2 = c then some kv.1 else acc) none

/-- Modelled from the spec: `encode(canonical_format, target_table)` renders
each canonical directive through the target table's forward lookup and passes
literal fragments through verbatim; a directive absent from the target table
is the lossy-mapping error condition, surfaced as `none`. -/
def encode (tbl : DirTable) : List FElem → Option String
  | [] => some ""
  | FElem.lit s :: rest => (encode tbl rest).map (fun t => s ++ t)
  | FElem.dir d :: rest =>
    match lookupForward tbl d with
    | none => none
    | some tok => (encode tbl rest).map (fun t => tok ++ t)

/-- Insert a key/value pair into an association list, replacing the value of
an existing key in place (Python dict assignment semantics). -/
def insertLast (acc : DirTable) (k v : String) : DirTable :=
  match acc with
  | [] => [(k, v)]
  | (a, b) :: r => if a = k then (a, v) :: r else (a, b) :: insertLast r k v

/-- Modelled from the spec: the framework's `INVERSE_TIME_MAPPING`
construction (a Python dict comprehension inverting `TIME_MAPPING`): keys in
first-occurrence order, last-registered value wins. -/
def invert (tbl : DirTable) : DirTable :=
  tbl.foldl (fun acc kv => insertLast acc kv.2 kv.1) []

/-- The concatenation of a canonical format sequence back into the flat
string the framework stores in the AST's format argument. -/
def flatten : List FElem → String
  | [] => ""
  | FElem.dir d :: r => d ++ flatten r
  | FElem.lit s :: r => s ++ flatten r

/-- `SingleStore.TIME_MAPPING`, entries in source order. -/
def singlestoreTimeMapping : DirTable :=
  [ ("D", "%u"),
    ("DD", "%d"),
    ("DY", "%a"),
    ("HH", "%I"),
    ("HH12", "%I"),
    ("HH24", "%H"),
    ("MI", "%M"),
    ("MM", "%m"),
    ("MON", "%b"),
    ("MONTH", "%B"),
    ("SS", "%S"),
    ("RR", "%y"),
    ("YY", "%y"),
    ("YYYY", "%Y"),
    ("FF6", "%f") ]

/-- Modelled from the spec: the base (MySQL) dialect's directive table is not
in `src/`; the spec states that for the directives this module exercises the
base table maps `%Y`, `%m` and `%d` to themselves as literal
percent-directives. -/
def mysqlTimeMapping : DirTable :=
  [ ("%Y", "%Y"),
    ("%m", "%m"),
    ("%d", "%d") ]

/-- The forward (inverse) table of this dialect, as the framework derives it. -/
def singlestoreInverseTimeMapping : DirTable := invert singlestoreTimeMapping

/-- The forward (inverse) table of the base dialect, as the framework derives
it from the modelled base table. -/
def mysqlInverseTimeMapping : DirTable := invert mysqlTimeMapping

/-- A fragment of the sqlglot expression AST: the node kinds this module
constructs or transforms.  Optional children model Python `None`. -/
inductive Expr where
  | strLit (s : String)
  | numLit (n : Nat)
  | ident (name : String)
  | dataTypeParam (value : Expr)
  | dataType (name : String) (expressions : List Expr)
  | cast (value : Option Expr) (target : Expr)
  | tsOrDsToDate (value : Option Expr) (format : Option Expr)
  | strToTime (value : Option Expr) (format : Option Expr)
  | toChar (value : Option Expr) (format : Option Expr)
  | strToDate (value : Option Expr) (format : Option Expr)
  | timeToStr (value : Option Expr) (format : Option Expr)
deriving Repr

/-- Modelled from the spec: `sqlglot.helper.seq_get` (absent from `src/`) —
the i-th argument of a call when present, `None` otherwise. -/
def seqGet (args : List Expr) (i : Nat) : Option Expr :=
  args[i]?

/-- The `this` (value) child of the temporal nodes and of `Cast`. -/
def exprThis : Expr → Option Expr
  | Expr.cast v _ => v
  | Expr.tsOrDsToDate v _ => v
  | Expr.strToTime v _ => v
  | Expr.toChar v _ => v
  | Expr.strToDate v _ => v
  | Expr.timeToStr v _ => v
  | _ => none

/-- The `format` child of the temporal nodes. -/
def exprFormat : Expr → Option Expr
  | Expr.tsOrDsToDate _ f => f
  | Expr.strToTime _ f => f
  | Expr.toChar _ f => f
  | Expr.strToDate _ f => f
  | Expr.timeToStr _ f => f
  | _ => none

/-- The `TIME(6)` data type built by the `TIME_FORMAT` parse rule:
`DataType.build(Type.TIME, expressions=[DataTypeParam(Literal.number(6))])`. -/
def time6 : Expr :=
  Expr.dataType "TIME" [Expr.dataTypeParam (Expr.numLit 6)]

/-- Modelled from the spec: `Dialect.format_time` (absent from `src/`) — a
literal format argument is decoded with the dialect's table into the
canonical vocabulary and stored back as a literal; a non-literal format
argument passes through unmodified; a missing argument stays missing. -/
def formatTimeDialect (tbl : DirTable) : Option Expr → Option Expr
  | some (Expr.strLit s) => some (Expr.strLit (flatten (decode tbl s)))
  | some e => some e
  | none => none

/-- Modelled from the spec: `build_formatted_time(exp_class, dialect)`
(absent from `src/`) — the parse rule that builds the node from the first
argument and the format argument transcoded with the named dialect's table. -/
def buildFormattedTime (mk : Option Expr → Option Expr → Expr) (tbl : DirTable)
    (args : List Expr) : Expr :=
  mk (seqGet args 0) (formatTimeDialect tbl (seqGet args 1))

/-- The `TIME_FORMAT` entry of `SingleStore.Parser.FUNCTIONS`: the first
argument is wrapped in a cast to `TIME(6)` and the format argument goes
through `MySQL.format_time`. -/
def timeFormatBuilder (args : List Expr) : Expr :=
  Expr.timeToStr
    (some (Expr.cast (seqGet args 0) time6))
    (formatTimeDialect mysqlTimeMapping (seqGet args 1))

/-- The function-name entries `SingleStore.Parser.FUNCTIONS` adds over the
base parser, keyed by SQL function name. -/
def singlestoreFunctions : String → Option (List Expr → Expr)
  | "TO_DATE" => some (buildFormattedTime Expr.tsOrDsToDate singlestoreTimeMapping)
  | "TO_TIMESTAMP" => some (buildFormattedTime Expr.strToTime singlestoreTimeMapping)
  | "TO_CHAR" => some (buildFormattedTime Expr.toChar singlestoreTimeMapping)
  | "STR_TO_DATE" => some (buildFormattedTime Expr.strToDate mysqlTimeMapping)
  | "DATE_FORMAT" => some (buildFormattedTime Expr.timeToStr mysqlTimeMapping)
  | "TIME_FORMAT" => some timeFormatBuilder
  | _ => none

/-- The rendered function call a generator transform produces: the function
name, the value argument and the (possibly transcoded) format argument. -/
structure GenCall where
  name : String
  value : Option Expr
  fmt : Option Expr
deriving Repr

/-- Modelled from the spec: `Generator.format_time(e, inverse overrides)`
(absent from `src/`) — re-encodes the node's literal canonical format with
the given inverse (forward) table, the dialect's own inverse table being the
default when a transform passes no override. -/
def genFormatTime (inv : DirTable) (f : Option Expr) : Option Expr :=
  match f with
  | some (Expr.strLit s) => some (Expr.strLit (flatten (decode inv s)))
  | some e => some e
  | none => none

/-- `TRANSFORMS[exp.TsOrDsToDate]`: `TO_DATE` with the default (this
dialect's) inverse table. -/
def transformTsOrDsToDate : Expr → Option GenCall
  | Expr.tsOrDsToDate v f =>
    some ⟨"TO_DATE", v, genFormatTime singlestoreInverseTimeMapping f⟩
  | _ => none

/-- `TRANSFORMS[exp.StrToTime]`: `TO_TIMESTAMP` with the default (this
dialect's) inverse table. -/
def transformStrToTime : Expr → Option GenCall
  | Expr.strToTime v f =>
    some ⟨"TO_TIMESTAMP", v, genFormatTime singlestoreInverseTimeMapping f⟩
  | _ => none

/-- `TRANSFORMS[exp.ToChar]`: `TO_CHAR` with the default (this dialect's)
inverse table. -/
def transformToChar : Expr → Option GenCall
  | Expr.toChar v f =>
    some ⟨"TO_CHAR", v, genFormatTime singlestoreInverseTimeMapping f⟩
  | _ => none

/-- `TRANSFORMS[exp.StrToDate]`: `STR_TO_DATE` with the explicit
`MySQL.INVERSE_TIME_MAPPING` override. -/
def transformStrToDate : Expr → Option GenCall
  | Expr.strToDate v f =>
    some ⟨"STR_TO_DATE", v, genFormatTime mysqlInverseTimeMapping f⟩
  | _ => none

/-- `TRANSFORMS[exp.TimeToStr]`: `DATE_FORMAT` with the explicit
`MySQL.INVERSE_TIME_MAPPING` override. -/
def transformTimeToStr : Expr → Option GenCall
  | Expr.timeToStr v f =>
    some ⟨"DATE_FORMAT", v, genFormatTime mysqlInverseTimeMapping f⟩
  | _ => none

/-- `SingleStore.Generator.RESERVED_KEYWORDS`, entries in source order
(the source set literal repeats a few entries; set membership is
unaffected). -/
def reservedKeywords : List String :=
  [ "abs", "absolute", "access", "account", "acos", "action",
    "add", "adddate", "addtime", "admin", "aes_decrypt", "aes_encrypt",
    "after", "against", "aggregate", "aggregates", "aggregator", "aggregator_id",
    "aggregator_plan_hash", "aggregators", "algorithm", "all", "also", "alter",
    "always", "analyse", "analyze", "and", "anti_join", "any",
    "any_value", "approx_count_distinct", "approx_count_distinct_accumulate", "approx_count_distinct_combine", "approx_count_distinct_estimate", "approx_geography_intersects",
    "approx_percentile", "arghistory", "arrange", "arrangement", "array", "as",
    "asc", "ascii", "asensitive", "asin", "asm", "assertion",
    "assignment", "ast", "asymmetric", "async", "at", "atan",
    "atan2", "attach", "attribute", "authorization", "auto", "auto_increment",
    "auto_reprovision", "autostats", "autostats_cardinality_mode", "autostats_enabled", "autostats_histogram_mode", "autostats_sampling",
    "availability", "avg", "avg_row_length", "avro", "azure", "background",
    "_background_threads_for_cleanup", "backup", "backup_history", "backup_id", "backward", "batch",
    "batches", "batch_interval", "_batch_size_limit", "before", "begin", "between",
    "bigint", "bin", "binary", "_binary", "bit", "bit_and",
    "bit_count", "bit_or", "bit_xor", "blob", "bool", "boolean",
    "bootstrap", "both", "_bt", "btree", "bucket_count", "by",
    "byte", "byte_length", "cache", "call", "call_for_pipeline", "called",
    "capture", "cascade", "cascaded", "case", "cast", "catalog",
    "ceil", "ceiling", "chain", "change", "char", "character",
    "characteristics", "character_length", "char_length", "charset", "check", "checkpoint",
    "_check_can_connect", "_check_consistency", "checksum", "_checksum", "class", "clear",
    "client", "client_found_rows", "close", "cluster", "clustered", "cnf",
    "coalesce", "coercibility", "collate", "collation", "collect", "column",
    "columnar", "columns", "columnstore", "columnstore_segment_rows", "comment", "comments",
    "commit", "committed", "_commit_log_tail", "committed", "compact", "compile",
    "compressed", "compression", "concat", "concat_ws", "concurrent", "concurrently",
    "condition", "configuration", "connection", "connection_id", "connections", "config",
    "constraint", "constraints", "content", "continue", "_continue_replay", "conv",
    "conversion", "convert", "convert_tz", "copy", "_core", "cos",
    "cost", "cot", "count", "create", "credentials", "cross",
    "cube", "csv", "cume_dist", "curdate", "current", "current_catalog",
    "current_date", "current_role", "current_schema", "current_security_groups", "current_security_roles", "current_time",
    "current_timestamp", "current_user", "cursor", "curtime", "cycle", "data",
    "database", "databases", "date", "date_add", "datediff", "date_format",
    "date_sub", "date_trunc", "datetime", "day", "day_hour", "day_microsecond",
    "day_minute", "dayname", "dayofmonth", "dayofweek", "dayofyear", "day_second",
    "deallocate", "dec", "decimal", "declare", "decode", "default",
    "defaults", "deferrable", "deferred", "defined", "definer", "degrees",
    "delayed", "delay_key_write", "delete", "delimiter", "delimiters", "dense_rank",
    "desc", "describe", "detach", "deterministic", "dictionary", "differential",
    "directory", "disable", "discard", "_disconnect", "disk", "distinct",
    "distinctrow", "distributed_joins", "div", "do", "document", "domain",
    "dot_product", "double", "drop", "_drop_profile", "dual", "dump",
    "duplicate", "dynamic", "earliest", "each", "echo", "election",
    "else", "elseif", "elt", "enable", "enclosed", "encoding",
    "encrypted", "end", "engine", "engines", "enum", "errors",
    "escape", "escaped", "estimate", "euclidean_distance", "event", "events",
    "except", "exclude", "excluding", "exclusive", "execute", "exists",
    "exit", "exp", "explain", "extended", "extension", "external",
    "external_host", "external_port", "extract", "extractor", "extractors", "extra_join",
    "_failover", "failed_login_attempts", "failure", "false", "family", "fault",
    "fetch", "field", "fields", "file", "files", "fill",
    "first", "first_value", "fix_alter", "fixed", "float", "float4",
    "float8", "floor", "flush", "following", "for", "force",
    "force_compiled_mode", "force_interpreter_mode", "foreground", "foreign", "format", "forward",
    "found_rows", "freeze", "from", "from_base64", "from_days", "from_unixtime",
    "fs", "_fsync", "full", "fulltext", "function", "functions",
    "gc", "gcs", "get_format", "_gc", "_gcx", "generate",
    "geography", "geography_area", "geography_contains", "geography_distance", "geography_intersects", "geography_latitude",
    "geography_length", "geography_longitude", "geographypoint", "geography_point", "geography_within_distance", "geometry",
    "geometry_area", "geometry_contains", "geometry_distance", "geometry_filter", "geometry_intersects", "geometry_length",
    "geometrypoint", "geometry_point", "geometry_within_distance", "geometry_x", "geometry_y", "global",
    "_global_version_timestamp", "grant", "granted", "grants", "greatest", "group",
    "grouping", "groups", "group_concat", "gzip", "handle", "handler",
    "hard_cpu_limit_percentage", "hash", "has_temp_tables", "having", "hdfs", "header",
    "heartbeat_no_logging", "hex", "highlight", "high_priority", "hold", "holding",
    "host", "hosts", "hour", "hour_microsecond", "hour_minute", "hour_second",
    "identified", "identity", "if", "ifnull", "ignore", "ilike",
    "immediate", "immutable", "implicit", "import", "in", "including",
    "increment", "incremental", "index", "indexes", "inet_aton", "inet_ntoa",
    "inet6_aton", "inet6_ntoa", "infile", "inherit", "inherits", "_init_profile",
    "init", "initcap", "initialize", "initially", "inject", "inline",
    "inner", "inout", "input", "insensitive", "insert", "insert_method",
    "instance", "instead", "instr", "int", "int1", "int2",
    "int3", "int4", "int8", "integer", "_internal_dynamic_typecast", "interpreter_mode",
    "intersect", "interval", "into", "invoker", "is", "isnull",
    "isolation", "iterate", "join", "json", "json_agg", "json_array_contains_double",
    "json_array_contains_json", "json_array_contains_string", "json_array_push_double", "json_array_push_json", "json_array_push_string", "json_delete_key",
    "json_extract_double", "json_extract_json", "json_extract_string", "json_extract_bigint", "json_get_type", "json_length",
    "json_set_double", "json_set_json", "json_set_string", "json_splice_double", "json_splice_json", "json_splice_string",
    "kafka", "key", "key_block_size", "keys", "kill", "killall",
    "label", "lag", "language", "large", "last", "last_day",
    "last_insert_id", "last_value", "lateral", "latest", "lc_collate", "lc_ctype",
    "lcase", "lead", "leading", "leaf", "leakproof", "least",
    "leave", "leaves", "left", "length", "level", "license",
    "like", "limit", "lines", "listen", "llvm", "ln",
    "load", "loaddata_where", "_load", "local", "localtime", "localtimestamp",
    "locate", "location", "lock", "log", "log10", "log2",
    "long", "longblob", "longtext", "loop", "lower", "low_priority",
    "lpad", "_ls", "ltrim", "lz4", "management", "_management_thread",
    "mapping", "master", "match", "materialized", "max", "maxvalue",
    "max_concurrency", "max_errors", "max_partitions_per_batch", "max_queue_depth", "max_retries_per_batch_partition", "max_rows",
    "mbc", "md5", "mpl", "median", "mediumblob", "mediumint",
    "mediumtext", "member", "memory", "memory_percentage", "_memsql_table_id_lookup", "memsql",
    "memsql_deserialize", "memsql_imitating_kafka", "memsql_serialize", "merge", "metadata", "microsecond",
    "middleint", "min", "min_rows", "minus", "minute", "minute_microsecond",
    "minute_second", "minvalue", "mod", "mode", "model", "modifies",
    "modify", "month", "monthname", "months_between", "move", "mpl",
    "names", "named", "namespace", "national", "natural", "nchar",
    "next", "no", "node", "none", "no_query_rewrite", "noparam",
    "not", "nothing", "notify", "now", "nowait", "no_write_to_binlog",
    "no_query_rewrite", "norely", "nth_value", "ntile", "null", "nullcols",
    "nullif", "nulls", "numeric", "nvarchar", "object", "octet_length",
    "of", "off", "offline", "offset", "offsets", "oids",
    "on", "online", "only", "open", "operator", "optimization",
    "optimize", "optimizer", "optimizer_state", "option", "options", "optionally",
    "or", "order", "ordered_serialize", "orphan", "out", "out_of_order",
    "outer", "outfile", "over", "overlaps", "overlay", "owned",
    "owner", "pack_keys", "paired", "parser", "parquet", "partial",
    "partition", "partition_id", "partitioning", "partitions", "passing", "password",
    "password_lock_time", "parser", "pause", "_pause_replay", "percent_rank", "percentile_cont",
    "percentile_disc", "periodic", "persisted", "pi", "pipeline", "pipelines",
    "pivot", "placing", "plan", "plans", "plancache", "plugins",
    "pool", "pools", "port", "position", "pow", "power",
    "preceding", "precision", "prepare", "prepared", "preserve", "primary",
    "prior", "privileges", "procedural", "procedure", "procedures", "process",
    "processlist", "profile", "profiles", "program", "promote", "proxy",
    "purge", "quarter", "queries", "query", "query_timeout", "queue",
    "quote", "radians", "rand", "range", "rank", "read",
    "_read", "reads", "real", "reassign", "rebalance", "recheck",
    "record", "recursive", "redundancy", "redundant", "ref", "reference",
    "references", "refresh", "regexp", "reindex", "relative", "release",
    "reload", "rely", "remote", "remove", "rename", "repair",
    "_repair_table", "repeat", "repeatable", "_repl", "_reprovisioning", "replace",
    "replica", "replicate", "replicating", "replication", "durability", "require",
    "resource", "resource_pool", "reset", "restart", "restore", "restrict",
    "result", "_resurrect", "retry", "return", "returning", "returns",
    "reverse", "revoke", "rg_pool", "right", "right_anti_join", "right_semi_join",
    "right_straight_join", "rlike", "role", "roles", "rollback", "rollup",
    "round", "routine", "row", "row_count", "row_format", "row_number",
    "rows", "rowstore", "rule", "rpad", "_rpc", "rtrim",
    "running", "s3", "safe", "save", "savepoint", "scalar",
    "schema", "schemas", "schema_binding", "scroll", "search", "second",
    "second_microsecond", "sec_to_time", "security", "select", "semi_join", "_send_threads",
    "sensitive", "separator", "sequence", "sequences", "serial", "serializable",
    "series", "service_user", "server", "session", "session_user", "set",
    "setof", "security_lists_intersect", "sha", "sha1", "sha2", "shard",
    "sharded", "sharded_id", "share", "show", "shutdown", "sigmoid",
    "sign", "signal", "similar", "simple", "site", "signed",
    "sin", "skip", "skipped_batches", "sleep", "_sleep", "smallint",
    "snapshot", "_snapshot", "_snapshots", "soft_cpu_limit_percentage", "some", "soname",
    "sparse", "spatial", "spatial_check_index", "specific", "split", "sql",
    "sql_big_result", "sql_buffer_result", "sql_cache", "sql_calc_found_rows", "sqlexception", "sql_mode",
    "sql_no_cache", "sql_no_logging", "sql_small_result", "sqlstate", "sqlwarning", "sqrt",
    "ssl", "stable", "standalone", "start", "starting", "state",
    "statement", "statistics", "stats", "status", "std", "stddev",
    "stddev_pop", "stddev_samp", "stdin", "stdout", "stop", "storage",
    "str_to_date", "straight_join", "strict", "string", "strip", "subdate",
    "substr", "substring", "substring_index", "success", "sum", "super",
    "symmetric", "sync_snapshot", "sync", "_sync", "_sync2", "_sync_partitions",
    "_sync_snapshot", "synchronize", "sysid", "system", "table", "table_checksum",
    "tables", "tablespace", "tags", "tan", "target_size", "task",
    "temp", "template", "temporary", "temptable", "_term_bump", "terminate",
    "terminated", "test", "text", "then", "time", "timediff",
    "time_bucket", "time_format", "timeout", "timestamp", "timestampadd", "timestampdiff",
    "timezone", "time_to_sec", "tinyblob", "tinyint", "tinytext", "to",
    "to_base64", "to_char", "to_date", "to_days", "to_json", "to_number",
    "to_seconds", "to_timestamp", "tracelogs", "traditional", "trailing", "transform",
    "transaction", "_transactions_experimental", "treat", "trigger", "triggers", "trim",
    "true", "trunc", "truncate", "trusted", "two_phase", "_twopcid",
    "type", "types", "ucase", "unbounded", "uncommitted", "undefined",
    "undo", "unencrypted", "unenforced", "unhex", "unhold", "unicode",
    "union", "unique", "_unittest", "unix_timestamp", "unknown", "unlisten",
    "_unload", "unlock", "unlogged", "unpivot", "unsigned", "until",
    "update", "upgrade", "upper", "usage", "use", "user",
    "users", "using", "utc_date", "utc_time", "utc_timestamp", "_utf8",
    "vacuum", "valid", "validate", "validator", "value", "values",
    "varbinary", "varchar", "varcharacter", "variables", "variadic", "variance",
    "var_pop", "var_samp", "varying", "vector_sub", "verbose", "version",
    "view", "void", "volatile", "voting", "wait", "_wake",
    "warnings", "week", "weekday", "weekofyear", "when", "where",
    "while", "whitespace", "window", "with", "without", "within",
    "_wm_heartbeat", "work", "workload", "wrapper", "write", "xact_id",
    "xor", "year", "year_month", "yes", "zerofill", "zone" ]

/-- The lowercased form of a string, character by character. -/
def lowerString (s : String) : String :=
  String.mk (s.data.map Char.toLower)

/-- Modelled from the spec: the generator's identifier-quoting decision
(absent from `src/`) — an identifier must be rendered quoted exactly when
its lowercased form is a member of the reserved-word set. -/
def identifierMustQuote (s : String) : Bool :=
  decide (lowerString s ∈ reservedKeywords)

theorem bestMatch_none_unmatched {tbl : DirTable} {cs : List Char}
    (h : bestMatch tbl cs = none) :
    ∀ kv ∈ tbl, kv.1.data.isPrefixOf cs = false := by
  induction tbl with
  | nil => intro kv hkv; cases hkv
  | cons p rest ih =>
    intro kv hkv
    obtain ⟨a, b⟩ := p
    simp only [bestMatch] at h
    split at h
    · split at h
      · exact absurd h (by simp)
      · split at h <;> exact absurd h (by simp)
    · rename_i hap
      rcases List.mem_cons.mp hkv with hkv | hkv
      · subst hkv
        exact Bool.eq_false_iff.mpr hap
      · exact ih h kv hkv

theorem bestMatch_longest {tbl : DirTable} {cs k : List Char} {v : String}
    (h : bestMatch tbl cs = some (k, v)) :
    ∀ kv ∈ tbl, kv.1.data.isPrefixOf cs = true → kv.1.data.length ≤ k.length := by
  induction tbl generalizing k v with
  | nil => cases h
  | cons p rest ih =>
    intro kv hkv hpref
    obtain ⟨a, b⟩ := p
    simp only [bestMatch] at h
    split at h
    · rename_i hap
      split at h
      · rename_i hnone
        simp only [Option.some.injEq, Prod.mk.injEq] at h
        obtain ⟨hk, hv⟩ := h
        subst hk
        rcases List.mem_cons.mp hkv with hkv | hkv
        · subst hkv; exact Nat.le_refl _
        · simp [bestMatch_none_unmatched hnone kv hkv] at hpref
      · rename_i bk bv hsome
        split at h
        · rename_i hlt
          simp only [Option.some.injEq, Prod.mk.injEq] at h
          obtain ⟨hk, hv⟩ := h
          subst hk
          rcases List.mem_cons.mp hkv with hkv | hkv
          · subst hkv; exact Nat.le_refl _
          · exact Nat.le_trans (ih hsome kv hkv hpref) (Nat.le_of_lt hlt)
        · rename_i hnlt
          simp only [Option.some.injEq, Prod.mk.injEq] at h
          obtain ⟨hk, hv⟩ := h
          subst hk
          rcases List.mem_cons.mp hkv with hkv | hkv
          · subst hkv; exact Nat.le_of_not_lt hnlt
          · exact ih hsome kv hkv hpref
    · rename_i hap
      rcases List.mem_cons.mp hkv with hkv | hkv
      · subst hkv; exact absurd hpref hap
      · exact ih h kv hkv hpref

theorem decodeAux_fuel (tbl : DirTable) :
    ∀ (n m : Nat) (cs : List Char), cs.length ≤ n → cs.length ≤ m →
      decodeAux tbl n cs = decodeAux tbl m cs := by
  intro n
  induction n with
  | zero =>
    intro m cs h1 _
    have hcs : cs = [] := List.eq_nil_of_length_eq_zero (Nat.le_zero.mp h1)
    subst hcs
    cases m <;> rfl
  | succ n ih =>
    intro m cs h1 h2
    cases cs with
    | nil => cases m <;> rfl
    | cons c cs2 =>
      cases m with
      | zero => simp at h2
      | succ m =>
        simp only [List.length_cons, Nat.succ_le_succ_iff] at h1 h2
        cases hb : bestMatch tbl (c :: cs2) with
        | none =>
          simp only [decodeAux, hb]
          rw [ih m cs2 h1 h2]
        | some kv =>
          obtain ⟨k, v⟩ := kv
          simp only [decodeAux, hb]
          have hd : (cs2.drop (k.length - 1)).length ≤ cs2.length := by
            rw [List.length_drop]; omega
          rw [ih m (cs2.drop (k.length - 1)) (Nat.le_trans hd h1) (Nat.le_trans hd h2)]

/-- C1 amended: for every entry of the SingleStore `TIME_MAPPING`, encoding
the decoded token back through the same table returns the last-registered
token of its canonical directive: the original token for thirteen of the
fifteen keys, but `HH12` for `HH` and `YY` for `RR`, because those pairs
share a canonical directive and the forward lookup is single-valued. -/
theorem c1_round_trip_last_registered :
    ∀ p ∈ singlestoreTimeMapping,
      encode singlestoreTimeMapping (decode singlestoreTimeMapping p.1) =
        some (if p.1 = "HH" then "HH12" else if p.1 = "RR" then "YY" else p.1) := by
  decide

/-- C1 witness: the amended round-trip statement at the concrete entry
`("YYYY", "%Y")`. -/
theorem c1_round_trip_last_registered_witness :
    ("YYYY", "%Y") ∈ singlestoreTimeMapping ∧
      encode singlestoreTimeMapping (decode singlestoreTimeMapping "YYYY") =
        some "YYYY" := by
  refine ⟨by decide, ?_⟩
  have h := c1_round_trip_last_registered ("YYYY", "%Y") (by decide)
  simpa using h

/-- C1 counterexample: the claim fails at the token `HH`: encoding its
decoded form back through the same table yields `HH12`, not `HH`. -/
theorem c1_round_trip_counterexample :
    encode singlestoreTimeMapping (decode singlestoreTimeMapping "HH") =
        some "HH12" ∧
      some "HH12" ≠ some ("HH" : String) := by
  decide

/-- C2: decoding `"HH24"` with the SingleStore table (which contains both
`HH` and `HH24`) yields exactly the one directive `%H`; and in general a
match returned by the longest-prefix matcher is at least as long as every
table token that is a prefix of the remaining input. -/
theorem c2_longest_match :
    decode singlestoreTimeMapping "HH24" = [FElem.dir "%H"] ∧
      ∀ (tbl : DirTable) (cs k : List Char) (v : String),
        bestMatch tbl cs = some (k, v) →
        ∀ kv ∈ tbl, kv.1.data.isPrefixOf cs = true → kv.1.data.length ≤ k.length := by
  refine ⟨by decide, ?_⟩
  intro tbl cs k v h kv hkv hpref
  exact bestMatch_longest h kv hkv hpref

/-- C2 witness: the longest-match bound at the concrete two-token table
containing `HH` and `HH24` on the input `HH24`. -/
theorem c2_longest_match_witness :
    bestMatch [("HH", "%I"), ("HH24", "%H")] "HH24".data =
        some ("HH24".data, "%H") ∧
      ("HH", "%I") ∈ [("HH", "%I"), ("HH24", "%H")] ∧
      ("HH" : String).data.isPrefixOf "HH24".data = true ∧
      ("HH" : String).data.length ≤ "HH24".data.length := by
  refine ⟨by decide, by decide, by decide, ?_⟩
  exact c2_longest_match.2 [("HH", "%I"), ("HH24", "%H")] "HH24".data "HH24".data
    "%H" (by decide) ("HH", "%I") (by decide) (by decide)

/-- C5: decoding `"YYYY-MM-DD"` against the SingleStore table yields the
five-element sequence `[%Y, "-", %m, "-", %d]`, and re-encoding that
sequence against the same table reproduces the original string exactly. -/
theorem c5_literal_preservation :
    decode singlestoreTimeMapping "YYYY-MM-DD" =
        [FElem.dir "%Y", FElem.lit "-", FElem.dir "%m", FElem.lit "-",
          FElem.dir "%d"] ∧
      encode singlestoreTimeMapping (decode singlestoreTimeMapping "YYYY-MM-DD") =
        some "YYYY-MM-DD" := by
  decide

/-- C6: decoding `"YYYY-MM-DD"` under the SingleStore table and then encoding
under the base (MySQL) table yields exactly `"%Y-%m-%d"`. -/
theorem c6_cross_dialect_transcoding :
    encode mysqlTimeMapping (decode singlestoreTimeMapping "YYYY-MM-DD") =
      some "%Y-%m-%d" := by
  decide

/-- C3: parsing `TIME_FORMAT` with a bare string literal value argument
builds a `TimeToStr` node whose value child is a `Cast` of that literal to
`TIME(6)` — observable in the built node's argument structure. -/
theorem c3_time_format_wraps_literal (s : String) (f : Expr) :
    exprThis (timeFormatBuilder [Expr.strLit s, f]) =
      some (Expr.cast (some (Expr.strLit s)) time6) := rfl

/-- C9: the `TIME_FORMAT` parse rule wraps the first argument in a cast to
`TIME(6)` unconditionally: for every argument list — literal, column, other
expression, or missing first argument — the built node's value child is the
cast of that (possibly absent) argument. -/
theorem c9_time_format_wrap_unconditional (args : List Expr) :
    exprThis (timeFormatBuilder args) =
      some (Expr.cast (seqGet args 0) time6) := rfl

/-- C7: the decoder is total: the input length is always sufficient fuel (the
result is the same under any fuel at least the input length, so the scanning
loop terminates on every input after consuming all of it), and at a position
where no table token matches the decoder consumes exactly one character as a
literal fragment. -/
theorem c7_decode_total (tbl : DirTable) (cs : List Char) :
    (∀ n, cs.length ≤ n → decodeAux tbl n cs = decodeAux tbl cs.length cs) ∧
      ∀ c cs2, cs = c :: cs2 → bestMatch tbl cs = none →
        decodeAux tbl cs.length cs =
          FElem.lit (String.mk [c]) :: decodeAux tbl cs2.length cs2 := by
  constructor
  · intro n hn
    exact decodeAux_fuel tbl n cs.length cs hn (Nat.le_refl _)
  · intro c cs2 hcs hb
    subst hcs
    simp only [List.length_cons, decodeAux, hb]

/-- C7 witness: the totality statement at the SingleStore table on the
concrete input `"@:"`, where no token matches. -/
theorem c7_decode_total_witness :
    ("@:".data.length ≤ 5) ∧
      decodeAux singlestoreTimeMapping 5 "@:".data =
        decodeAux singlestoreTimeMapping "@:".data.length "@:".data ∧
      bestMatch singlestoreTimeMapping "@:".data = none ∧
      decodeAux singlestoreTimeMapping "@:".data.length "@:".data =
        FElem.lit (String.mk ['@']) ::
          decodeAux singlestoreTimeMapping [':'].length [':'] := by
  refine ⟨by decide, ?_, by decide, ?_⟩
  · exact (c7_decode_total singlestoreTimeMapping "@:".data).1 5 (by decide)
  · exact (c7_decode_total singlestoreTimeMapping "@:".data).2 '@' [':'] rfl
      (by decide)

/-- C4 counterexample: the `ToChar` transform does not re-encode with the
base (MySQL) dialect's table: on a node whose canonical format is `%Y` it
emits `TO_CHAR` (a native function of this dialect, not a base-dialect one)
with the SingleStore-vocabulary format `YYYY`, while re-encoding with the
base dialect's inverse table would give `%Y`. -/
theorem c4_reencode_counterexample :
    (transformToChar (Expr.toChar none (some (Expr.strLit "%Y")))).map
        GenCall.fmt = some (some (Expr.strLit "YYYY")) ∧
      genFormatTime mysqlInverseTimeMapping (some (Expr.strLit "%Y")) =
        some (Expr.strLit "%Y") ∧
      ("YYYY" : String) ≠ "%Y" := by
  refine ⟨rfl, rfl, by decide⟩

/-- C4 amended: only the `StrToDate` and `TimeToStr` transforms re-encode the
canonical format with the base (MySQL) dialect's inverse table; the
`TsOrDsToDate`, `StrToTime` and `ToChar` transforms re-encode with this
dialect's own inverse table (the generator default) and emit the dialect's
native `TO_DATE`, `TO_TIMESTAMP` and `TO_CHAR` functions. -/
theorem c4_reencode_tables (v f : Option Expr) :
    (transformStrToDate (Expr.strToDate v f)).map GenCall.fmt =
        some (genFormatTime mysqlInverseTimeMapping f) ∧
      (transformTimeToStr (Expr.timeToStr v f)).map GenCall.fmt =
        some (genFormatTime mysqlInverseTimeMapping f) ∧
      (transformTsOrDsToDate (Expr.tsOrDsToDate v f)).map GenCall.fmt =
        some (genFormatTime singlestoreInverseTimeMapping f) ∧
      (transformStrToTime (Expr.strToTime v f)).map GenCall.fmt =
        some (genFormatTime singlestoreInverseTimeMapping f) ∧
      (transformToChar (Expr.toChar v f)).map GenCall.fmt =
        some (genFormatTime singlestoreInverseTimeMapping f) ∧
      (transformTsOrDsToDate (Expr.tsOrDsToDate v f)).map GenCall.name =
        some "TO_DATE" ∧
      (transformStrToTime (Expr.strToTime v f)).map GenCall.name =
        some "TO_TIMESTAMP" ∧
      (transformToChar (Expr.toChar v f)).map GenCall.name =
        some "TO_CHAR" ∧
      (transformStrToDate (Expr.strToDate v f)).map GenCall.name =
        some "STR_TO_DATE" ∧
      (transformTimeToStr (Expr.timeToStr v f)).map GenCall.name =
        some "DATE_FORMAT" :=
  ⟨rfl, rfl, rfl, rfl, rfl, rfl, rfl, rfl, rfl, rfl⟩

/-- C10: the parser decodes format literals of `TO_DATE`, `TO_TIMESTAMP` and
`TO_CHAR` with the SingleStore table and those of `STR_TO_DATE` and
`DATE_FORMAT` with the MySQL table; the stored canonical representation
therefore depends on the function name: the same literal `"YYYY"` is stored
as `"%Y"` by `TO_DATE` but kept as `"YYYY"` by `STR_TO_DATE`. -/
theorem c10_per_function_tables :
    (∀ v : Expr, ∀ s : String,
      ((singlestoreFunctions "TO_DATE").map fun b =>
          exprFormat (b [v, Expr.strLit s])) =
          some (some (Expr.strLit (flatten (decode singlestoreTimeMapping s)))) ∧
        ((singlestoreFunctions "TO_TIMESTAMP").map fun b =>
          exprFormat (b [v, Expr.strLit s])) =
          some (some (Expr.strLit (flatten (decode singlestoreTimeMapping s)))) ∧
        ((singlestoreFunctions "TO_CHAR").map fun b =>
          exprFormat (b [v, Expr.strLit s])) =
          some (some (Expr.strLit (flatten (decode singlestoreTimeMapping s)))) ∧
        ((singlestoreFunctions "STR_TO_DATE").map fun b =>
          exprFormat (b [v, Expr.strLit s])) =
          some (some (Expr.strLit (flatten (decode mysqlTimeMapping s)))) ∧
        ((singlestoreFunctions "DATE_FORMAT").map fun b =>
          exprFormat (b [v, Expr.strLit s])) =
          some (some (Expr.strLit (flatten (decode mysqlTimeMapping s))))) ∧
      flatten (decode singlestoreTimeMapping "YYYY") = "%Y" ∧
      flatten (decode mysqlTimeMapping "YYYY") = "YYYY" := by
  refine ⟨fun v s => ⟨rfl, rfl, rfl, rfl, rfl⟩, by decide, by decide⟩

/-- C8: under the modelled quoting decision, an identifier is rendered quoted
exactly when its lowercased form is a member of the dialect's reserved-word
set; membership is case-insensitive in the identifier, as the concrete
checks on `SELECT`, `select` and a non-keyword show. -/
theorem c8_reserved_word_quoting :
    (∀ s : String,
        identifierMustQuote s = true ↔ lowerString s ∈ reservedKeywords) ∧
      identifierMustQuote "SELECT" = true ∧
      identifierMustQuote "select" = true ∧
      identifierMustQuote "Window" = true ∧
      identifierMustQuote "customer_id" = false := by
  refine ⟨fun s => decide_eq_true_iff, ?_, ?_, ?_, ?_⟩ <;> decide
